import Mathlib

/-!
Verification development for the libcylc message layer (message.c,
message.h, configuration.h, hmac.h).

The C code is embedded shallowly: byte buffers are `List Nat` whose
entries are byte values, the process-wide `config` is passed explicitly
as an `Option (List Nat)` (the hmac key, `none` when `config.hmac_key`
is NULL), `exit(1)` sites are modelled as error results, and C casts to
`unsigned char` are `% 256`.
-/

deriving instance DecidableEq for Except

namespace Cylc

/-- `hmac_size` from hmac.h: SHA1 digest size. -/
def hmac_size : Nat := 20

/-- `PYRO_MAGIC` from message.h. -/
def PYRO_MAGIC : Nat := 0x34e9

/-- `PROTOCOL_VERSION` from message.h. -/
def PROTOCOL_VERSION : Nat := 44

/-- `HEADER_SIZE` from message.h. -/
def HEADER_SIZE : Nat := 38

/-- `_FLAGS_HMAC` from message.h (1 << 3). -/
def _FLAGS_HMAC : Nat := 8

/-- Modelled from the spec: the keyed digest `hmac_sha1` (the spec's
`Sign`).  Its implementation is not among the sources (hmac.h only
declares it, the body comes from gnulib), so per spec section 4.2 it is
modelled as a deterministic pure function of the key bytes and body
bytes with a fixed 20-byte output.  The concrete mixing below is a
stand-in; no theorem depends on anything beyond determinism and the
output length. -/
def hmac_sha1 (key body : List Nat) : List Nat :=
  (List.range hmac_size).map fun i =>
    (i * 131 + key.length * 3 + key.sum * 7 + body.length * 11 + body.sum * 13) % 256

/-- C `strlen` on the bytes in a memory region: the number of bytes
before the first zero byte. -/
def cstrlen (l : List Nat) : Nat := (l.takeWhile (fun b => b != 0)).length

/-- Cast to `unsigned char`. -/
def byte (n : Nat) : Nat := n % 256

/-- The process-wide `Configuration` (configuration.h): the hmac key
bytes, `none` when `config.hmac_key` is NULL.  `config.keyLen` is the
length of the list. -/
abbrev Config := Option (List Nat)

/-- `MessageHeader` from message.h. -/
structure MessageHeader where
  type : Nat
  flags : Nat
  sequence : Nat
  datasize : Nat
  hmac : List Nat
deriving DecidableEq

/-- `Message` from message.h. -/
structure Message where
  type : Nat
  flags : Nat
  sequence : Nat
  data : List Nat
deriving DecidableEq

/-- The distinct `exit(1)` sites of message.c, named after the
diagnostics they print.  In the spec's error vocabulary:
`sizeMismatch` is `Truncated` (header size test), `badMagicOrVersion`
is `BadMagicOrVersion`, `checksumMismatch` is `ChecksumMismatch`,
`invalidMsgType` is `UnexpectedType`, `hmacMismatch` is
`AuthenticationFailed`, `hmacConfigNotSymmetric` is
`AuthenticationModeMismatch`. -/
inductive Err where
  | sizeMismatch
  | badMagicOrVersion
  | checksumMismatch
  | invalidMsgType
  | hmacMismatch
  | hmacConfigNotSymmetric
deriving DecidableEq

/-- `createMsgHeader` (message.c lines 31-80).  `data` is the body
char pointer, `none` modelling NULL; `strlen(NULL)` at line 35 crashes,
modelled as `none`, and so does the `exit(1)` on an oversized sequence
number (line 53).  The dead NULL guard of lines 37-38 is kept in place
(the `if data.isNone` binding). -/
def createMsgHeader (msgtype : Nat) (data : Option (List Nat)) (flags : Nat)
    (sequenceNr : Nat) (cfg : Config) : Option (List Nat) :=
  data.bind fun d0 =>
    let dataLen := cstrlen d0
    let d := if data.isNone then [0] else d0
    let flags1 := if cfg.isSome then flags ||| _FLAGS_HMAC else flags
    let bodyhmac :=
      match cfg with
      | some key => hmac_sha1 key (d.take dataLen)
      | none => List.replicate hmac_size 0
    if sequenceNr > 0xffff then none
    else
      let headerchecksum :=
        msgtype + PROTOCOL_VERSION + dataLen + flags1 + sequenceNr + PYRO_MAGIC
      some ([80, 89, 82, 79,
             byte (PROTOCOL_VERSION >>> 8), byte PROTOCOL_VERSION,
             byte (msgtype >>> 8), byte msgtype,
             byte (flags1 >>> 8), byte flags1,
             byte (sequenceNr >>> 8), byte sequenceNr,
             byte (dataLen >>> 24), byte (dataLen >>> 16),
             byte (dataLen >>> 8), byte dataLen,
             byte (headerchecksum >>> 8), byte headerchecksum] ++ bodyhmac)

/-- The body of `createMsgHeader` with the NULL-handling removed: used
to state that, on a non-NULL body, the NULL guard of lines 37-38 never
affects the result. -/
def createMsgHeaderNoNullGuard (msgtype : Nat) (d0 : List Nat) (flags : Nat)
    (sequenceNr : Nat) (cfg : Config) : Option (List Nat) :=
  let dataLen := cstrlen d0
  let flags1 := if cfg.isSome then flags ||| _FLAGS_HMAC else flags
  let bodyhmac :=
    match cfg with
    | some key => hmac_sha1 key (d0.take dataLen)
    | none => List.replicate hmac_size 0
  if sequenceNr > 0xffff then none
  else
    let headerchecksum :=
      msgtype + PROTOCOL_VERSION + dataLen + flags1 + sequenceNr + PYRO_MAGIC
    some ([80, 89, 82, 79,
           byte (PROTOCOL_VERSION >>> 8), byte PROTOCOL_VERSION,
           byte (msgtype >>> 8), byte msgtype,
           byte (flags1 >>> 8), byte flags1,
           byte (sequenceNr >>> 8), byte sequenceNr,
           byte (dataLen >>> 24), byte (dataLen >>> 16),
           byte (dataLen >>> 8), byte dataLen,
           byte (headerchecksum >>> 8), byte headerchecksum] ++ bodyhmac)

/-- The size test of message.c line 128: `strlen(headerdata) == HEADER_SIZE`. -/
def sizeOK (hd : List Nat) : Bool := cstrlen hd == HEADER_SIZE

/-- Line 134: `version = (headerdata[4] << 8) | headerdata[5]` (no masks). -/
def readVersion (hd : List Nat) : Nat := ((hd.getD 4 0) <<< 8) ||| hd.getD 5 0

/-- The magic/version test of lines 135-137 (negated). -/
def magicVersionOK (hd : List Nat) : Bool :=
  hd.getD 0 0 == 80 && hd.getD 1 0 == 89 && hd.getD 2 0 == 82 && hd.getD 3 0 == 79 &&
    readVersion hd == PROTOCOL_VERSION

/-- Field extraction of lines 143-158 and the hmac copy of line 170. -/
def decodeFields (hd : List Nat) : MessageHeader :=
  { type := ((hd.getD 6 0 &&& 0xff) <<< 8) ||| (hd.getD 7 0 &&& 0xff)
    flags := ((hd.getD 8 0 &&& 0xff) <<< 8) ||| (hd.getD 9 0 &&& 0xff)
    sequence := ((hd.getD 10 0 &&& 0xff) <<< 8) ||| (hd.getD 11 0 &&& 0xff)
    datasize :=
      ((((((hd.getD 12 0 &&& 0xff) <<< 8) ||| (hd.getD 13 0 &&& 0xff)) <<< 8) |||
          (hd.getD 14 0 &&& 0xff)) <<< 8) ||| (hd.getD 15 0 &&& 0xff)
    hmac := (hd.drop 18).take hmac_size }

/-- Line 160: the checksum recomputed from the decoded fields (using the
version value read from the buffer, as the C code does). -/
def currentChecksum (hd : List Nat) : Nat :=
  ((decodeFields hd).type + readVersion hd + (decodeFields hd).datasize +
      (decodeFields hd).flags + (decodeFields hd).sequence + PYRO_MAGIC) &&& 0xffff

/-- Lines 161-163: the checksum stored at offsets 16-17 (big-endian). -/
def storedChecksum (hd : List Nat) : Nat :=
  ((hd.getD 16 0 &&& 0xff) <<< 8) ||| (hd.getD 17 0 &&& 0xff)

/-- `parseMessageHeader` (message.c lines 123-173).  The argument is the
header pointer, `none` modelling NULL; each `exit(1)` becomes an error. -/
def parseMessageHeader (headerdata : Option (List Nat)) : Except Err MessageHeader :=
  match headerdata with
  | none => .error .sizeMismatch
  | some hd =>
    if ¬ sizeOK hd then .error .sizeMismatch
    else if ¬ magicVersionOK hd then .error .badMagicOrVersion
    else if currentChecksum hd ≠ storedChecksum hd then .error .checksumMismatch
    else .ok (decodeFields hd)

/-- Line 99 of `getMessage`: `read(sockfd, data, 256)` on the bytes of
the stream that follow the header. -/
def readBody (stream : List Nat) : List Nat := (stream.drop HEADER_SIZE).take 256

/-- Lines 94-120 of `getMessage`: everything after the header has been
parsed - the required-type test, the hmac branch (whose `!memcmp` test
is transcribed as written in the source), the symmetry test, and the
assembly of the returned `Message` (`memcpy(msg.data, data, hmac_size)`
copies the first 20 bytes of the receive buffer). -/
def checkAssemble (header : MessageHeader) (body : List Nat) (cfg : Config)
    (requiredMsgType : Nat) : Except Err Message :=
  if requiredMsgType ≠ 0 ∧ header.type ≠ requiredMsgType then .error .invalidMsgType
  else if (header.flags &&& _FLAGS_HMAC) ≠ 0 ∧ cfg.isSome then
    if header.hmac = hmac_sha1 (cfg.getD []) body then .error .hmacMismatch
    else .ok { type := header.type, flags := header.flags,
               sequence := header.sequence, data := body.take hmac_size }
  else if (((header.flags &&& _FLAGS_HMAC) != 0) != cfg.isSome) then
    .error .hmacConfigNotSymmetric
  else .ok { type := header.type, flags := header.flags,
             sequence := header.sequence, data := body.take hmac_size }

/-- `getMessage` (message.c lines 82-121) over a byte stream: 38 header
bytes are read and parsed, then up to 256 body bytes, then the checks
of lines 94-113 run and the message is assembled. -/
def getMessage (stream : List Nat) (cfg : Config) (requiredMsgType : Nat) :
    Except Err Message :=
  match parseMessageHeader (some (stream.take HEADER_SIZE)) with
  | .error e => .error e
  | .ok header => checkAssemble header (readBody stream) cfg requiredMsgType

/-- Big-endian 16-bit read at offset `i`, used to state what the encoder
wrote at a given offset. -/
def readBE16 (l : List Nat) (i : Nat) : Nat := (l.getD i 0) * 256 + l.getD (i + 1) 0

/-- Single bit flip at byte offset `i`, bit `b`, for the corruption claims. -/
def flipBit (l : List Nat) (i b : Nat) : List Nat :=
  l.set i ((l.getD i 0) ^^^ (1 <<< b))

/-! Supporting lemmas. -/

theorem hmac_sha1_length (key body : List Nat) : (hmac_sha1 key body).length = hmac_size := by
  simp [hmac_sha1]

theorem cstrlen_le_length (l : List Nat) : cstrlen l ≤ l.length :=
  (List.takeWhile_sublist _).length_le

theorem cstrlen_eq_four {l : List Nat}
    (h0 : l.getD 0 0 ≠ 0) (h1 : l.getD 1 0 ≠ 0) (h2 : l.getD 2 0 ≠ 0)
    (h3 : l.getD 3 0 ≠ 0) (h4 : l.getD 4 0 = 0) (hlen : 4 < l.length) :
    cstrlen l = 4 := by
  rcases l with _ | ⟨a, _ | ⟨b, _ | ⟨c, _ | ⟨d, _ | ⟨e, t⟩⟩⟩⟩⟩ <;>
    simp_all [cstrlen, List.takeWhile_cons]

theorem getD_set_of_ne {l : List Nat} {i j : Nat} (v : Nat) (h : i ≠ j) :
    (l.set i v).getD j 0 = l.getD j 0 := by
  simp [List.getD_eq_getElem?_getD, List.getElem?_set_ne h]

theorem lor_shift8 (a b : Nat) (hb : b < 256) : (a <<< 8) ||| b = a * 256 + b := by
  have h2 : (2 : Nat) ^ 8 = 256 := by norm_num
  have h := Nat.mul_add_lt_is_or (i := 8) (b := b) (by omega) a
  rw [Nat.shiftLeft_eq, Nat.mul_comm, ← h]

theorem and255 (x : Nat) : x &&& 0xff = x % 256 := by
  have := Nat.and_pow_two_sub_one_eq_mod x 8
  norm_num at this
  simpa using this

theorem and_ffff (x : Nat) : x &&& 0xffff = x % 65536 := by
  have := Nat.and_pow_two_sub_one_eq_mod x 16
  norm_num at this
  simpa using this

theorem byte_lt (n : Nat) : byte n < 256 := Nat.mod_lt _ (by omega)

/-- Closed form of a successful `createMsgHeader` call with a configured key. -/
theorem create_some_key (mt : Nat) (d : List Nat) (fl sq : Nat) (key : List Nat)
    (h : sq ≤ 0xffff) :
    createMsgHeader mt (some d) fl sq (some key) =
      some ([80, 89, 82, 79, 0, 44,
             byte (mt >>> 8), byte mt,
             byte ((fl ||| _FLAGS_HMAC) >>> 8), byte (fl ||| _FLAGS_HMAC),
             byte (sq >>> 8), byte sq,
             byte (cstrlen d >>> 24), byte (cstrlen d >>> 16),
             byte (cstrlen d >>> 8), byte (cstrlen d),
             byte ((mt + PROTOCOL_VERSION + cstrlen d + (fl ||| _FLAGS_HMAC) + sq + PYRO_MAGIC) >>> 8),
             byte (mt + PROTOCOL_VERSION + cstrlen d + (fl ||| _FLAGS_HMAC) + sq + PYRO_MAGIC)] ++
            hmac_sha1 key (d.take (cstrlen d))) := by
  simp only [createMsgHeader, Option.some_bind, Option.isNone_some, Bool.false_eq_true,
    if_false, Option.isSome_some, if_true]
  rw [if_neg (by omega)]
  norm_num [byte, PROTOCOL_VERSION, Nat.shiftRight_eq_div_pow]

/-- Closed form of a successful `createMsgHeader` call with no key configured. -/
theorem create_some_none (mt : Nat) (d : List Nat) (fl sq : Nat)
    (h : sq ≤ 0xffff) :
    createMsgHeader mt (some d) fl sq none =
      some ([80, 89, 82, 79, 0, 44,
             byte (mt >>> 8), byte mt,
             byte (fl >>> 8), byte fl,
             byte (sq >>> 8), byte sq,
             byte (cstrlen d >>> 24), byte (cstrlen d >>> 16),
             byte (cstrlen d >>> 8), byte (cstrlen d),
             byte ((mt + PROTOCOL_VERSION + cstrlen d + fl + sq + PYRO_MAGIC) >>> 8),
             byte (mt + PROTOCOL_VERSION + cstrlen d + fl + sq + PYRO_MAGIC)] ++
            List.replicate hmac_size 0) := by
  simp only [createMsgHeader, Option.some_bind, Option.isNone_some, Bool.false_eq_true,
    if_false, Option.isSome_none, Bool.false_eq_true]
  rw [if_neg (by omega)]
  norm_num [byte, PROTOCOL_VERSION, Nat.shiftRight_eq_div_pow]

theorem readBE16_at16 (e0 e1 e2 e3 e4 e5 e6 e7 e8 e9 e10 e11 e12 e13 e14 e15 e16 e17 : Nat)
    (t : List Nat) :
    readBE16 ([e0, e1, e2, e3, e4, e5, e6, e7, e8, e9, e10, e11, e12, e13, e14, e15, e16, e17] ++ t)
      16 = e16 * 256 + e17 := by
  simp only [readBE16, List.cons_append, List.getD_cons_succ, List.getD_cons_zero]

theorem getD_first18 (e0 e1 e2 e3 e4 e5 e6 e7 e8 e9 e10 e11 e12 e13 e14 e15 e16 e17 : Nat)
    (t : List Nat) :
    ([e0, e1, e2, e3, e4, e5, e6, e7, e8, e9, e10, e11, e12, e13, e14, e15, e16, e17] ++ t).getD 0 0 = e0 ∧
    ([e0, e1, e2, e3, e4, e5, e6, e7, e8, e9, e10, e11, e12, e13, e14, e15, e16, e17] ++ t).getD 1 0 = e1 ∧
    ([e0, e1, e2, e3, e4, e5, e6, e7, e8, e9, e10, e11, e12, e13, e14, e15, e16, e17] ++ t).getD 2 0 = e2 ∧
    ([e0, e1, e2, e3, e4, e5, e6, e7, e8, e9, e10, e11, e12, e13, e14, e15, e16, e17] ++ t).getD 3 0 = e3 ∧
    ([e0, e1, e2, e3, e4, e5, e6, e7, e8, e9, e10, e11, e12, e13, e14, e15, e16, e17] ++ t).getD 4 0 = e4 := by
  simp

/-- Shape facts available for any successful `createMsgHeader` output: the
magic bytes, the zero version high byte at offset 4, and the 38-byte length. -/
theorem create_out_shape (mt : Nat) (d : List Nat) (fl sq : Nat) (cfg : Config)
    (out : List Nat) (hsq : sq ≤ 0xffff)
    (hout : createMsgHeader mt (some d) fl sq cfg = some out) :
    out.getD 0 0 = 80 ∧ out.getD 1 0 = 89 ∧ out.getD 2 0 = 82 ∧
    out.getD 3 0 = 79 ∧ out.getD 4 0 = 0 ∧ out.length = 38 := by
  cases cfg with
  | none =>
    rw [create_some_none mt d fl sq hsq] at hout
    injection hout with h
    subst h
    obtain ⟨p0, p1, p2, p3, p4⟩ := getD_first18 80 89 82 79 0 44 (byte (mt >>> 8)) (byte mt)
      (byte (fl >>> 8)) (byte fl) (byte (sq >>> 8)) (byte sq)
      (byte (cstrlen d >>> 24)) (byte (cstrlen d >>> 16)) (byte (cstrlen d >>> 8))
      (byte (cstrlen d))
      (byte ((mt + PROTOCOL_VERSION + cstrlen d + fl + sq + PYRO_MAGIC) >>> 8))
      (byte (mt + PROTOCOL_VERSION + cstrlen d + fl + sq + PYRO_MAGIC))
      (List.replicate hmac_size 0)
    exact ⟨p0, p1, p2, p3, p4, by simp [hmac_size]⟩
  | some key =>
    rw [create_some_key mt d fl sq key hsq] at hout
    injection hout with h
    subst h
    obtain ⟨p0, p1, p2, p3, p4⟩ := getD_first18 80 89 82 79 0 44 (byte (mt >>> 8)) (byte mt)
      (byte ((fl ||| _FLAGS_HMAC) >>> 8)) (byte (fl ||| _FLAGS_HMAC)) (byte (sq >>> 8)) (byte sq)
      (byte (cstrlen d >>> 24)) (byte (cstrlen d >>> 16)) (byte (cstrlen d >>> 8))
      (byte (cstrlen d))
      (byte ((mt + PROTOCOL_VERSION + cstrlen d + (fl ||| _FLAGS_HMAC) + sq + PYRO_MAGIC) >>> 8))
      (byte (mt + PROTOCOL_VERSION + cstrlen d + (fl ||| _FLAGS_HMAC) + sq + PYRO_MAGIC))
      (hmac_sha1 key (d.take (cstrlen d)))
    exact ⟨p0, p1, p2, p3, p4, by simp [hmac_sha1_length, hmac_size]⟩

theorem getD_set_self (l : List Nat) (i v : Nat) (h : i < l.length) :
    (l.set i v).getD i 0 = v := by
  simp [List.getD_eq_getElem?_getD, List.getElem?_set_self h]

theorem parse_of_cstrlen_ne (l : List Nat) (h : cstrlen l ≠ 38) :
    parseMessageHeader (some l) = .error .sizeMismatch := by
  have hfalse : sizeOK l = false := by
    simp [sizeOK, HEADER_SIZE]
    omega
  simp [parseMessageHeader, hfalse]

theorem stored_set_ne (l : List Nat) (i v : Nat) (h16 : i ≠ 16) (h17 : i ≠ 17) :
    storedChecksum (l.set i v) = storedChecksum l := by
  simp only [storedChecksum]
  rw [getD_set_of_ne v h16, getD_set_of_ne v h17]

theorem current_set_ge18 (l : List Nat) (i v : Nat) (hi : 18 ≤ i) :
    currentChecksum (l.set i v) = currentChecksum l := by
  simp only [currentChecksum, decodeFields, readVersion]
  rw [getD_set_of_ne v (show i ≠ 4 by omega), getD_set_of_ne v (show i ≠ 5 by omega),
    getD_set_of_ne v (show i ≠ 6 by omega), getD_set_of_ne v (show i ≠ 7 by omega),
    getD_set_of_ne v (show i ≠ 8 by omega), getD_set_of_ne v (show i ≠ 9 by omega),
    getD_set_of_ne v (show i ≠ 10 by omega), getD_set_of_ne v (show i ≠ 11 by omega),
    getD_set_of_ne v (show i ≠ 12 by omega), getD_set_of_ne v (show i ≠ 13 by omega),
    getD_set_of_ne v (show i ≠ 14 by omega), getD_set_of_ne v (show i ≠ 15 by omega)]

theorem ds_chain (a x y z : Nat) :
    ((((((a &&& 0xff) <<< 8) ||| (x &&& 0xff)) <<< 8) ||| (y &&& 0xff)) <<< 8) ||| (z &&& 0xff) =
      (((a % 256) * 256 + x % 256) * 256 + y % 256) * 256 + z % 256 := by
  rw [and255, and255, and255, and255,
    lor_shift8 _ _ (Nat.mod_lt _ (by omega)),
    lor_shift8 _ _ (Nat.mod_lt _ (by omega)),
    lor_shift8 _ _ (Nat.mod_lt _ (by omega))]

theorem current_set12 (l : List Nat) (v : Nat) (hlen : 12 < l.length) :
    currentChecksum (l.set 12 v) = currentChecksum l := by
  simp only [currentChecksum, decodeFields, readVersion]
  rw [getD_set_of_ne v (show (12 : Nat) ≠ 4 by omega), getD_set_of_ne v (show (12 : Nat) ≠ 5 by omega),
    getD_set_of_ne v (show (12 : Nat) ≠ 6 by omega), getD_set_of_ne v (show (12 : Nat) ≠ 7 by omega),
    getD_set_of_ne v (show (12 : Nat) ≠ 8 by omega), getD_set_of_ne v (show (12 : Nat) ≠ 9 by omega),
    getD_set_of_ne v (show (12 : Nat) ≠ 10 by omega), getD_set_of_ne v (show (12 : Nat) ≠ 11 by omega),
    getD_set_of_ne v (show (12 : Nat) ≠ 13 by omega), getD_set_of_ne v (show (12 : Nat) ≠ 14 by omega),
    getD_set_of_ne v (show (12 : Nat) ≠ 15 by omega), getD_set_self l 12 v hlen,
    and_ffff, and_ffff, ds_chain, ds_chain]
  omega

theorem current_set13 (l : List Nat) (v : Nat) (hlen : 13 < l.length) :
    currentChecksum (l.set 13 v) = currentChecksum l := by
  simp only [currentChecksum, decodeFields, readVersion]
  rw [getD_set_of_ne v (show (13 : Nat) ≠ 4 by omega), getD_set_of_ne v (show (13 : Nat) ≠ 5 by omega),
    getD_set_of_ne v (show (13 : Nat) ≠ 6 by omega), getD_set_of_ne v (show (13 : Nat) ≠ 7 by omega),
    getD_set_of_ne v (show (13 : Nat) ≠ 8 by omega), getD_set_of_ne v (show (13 : Nat) ≠ 9 by omega),
    getD_set_of_ne v (show (13 : Nat) ≠ 10 by omega), getD_set_of_ne v (show (13 : Nat) ≠ 11 by omega),
    getD_set_of_ne v (show (13 : Nat) ≠ 12 by omega), getD_set_of_ne v (show (13 : Nat) ≠ 14 by omega),
    getD_set_of_ne v (show (13 : Nat) ≠ 15 by omega), getD_set_self l 13 v hlen,
    and_ffff, and_ffff, ds_chain, ds_chain]
  omega

theorem checkAssemble_ok_data (hdr : MessageHeader) (body : List Nat) (cfg : Config)
    (req : Nat) (msg : Message) (h : checkAssemble hdr body cfg req = .ok msg) :
    msg.data = body.take hmac_size := by
  simp only [checkAssemble] at h
  split at h
  · exact absurd h (by simp)
  · split at h
    · split at h
      · exact absurd h (by simp)
      · injection h with h'
        subst h'
        rfl
    · split at h
      · exact absurd h (by simp)
      · injection h with h'
        subst h'
        rfl

/-! The claims. -/

/-- Claim C10: `createMsgHeader` computes `strlen(data)` before its
`data == NULL` guard, so the operation is only defined for a non-NULL body;
under that precondition the NULL-handling branch is dead code and never
affects the computed body length, flags, or digest (the result coincides
with the guard-free computation). -/
theorem claim_C10 :
    (∀ mt fl sq cfg, createMsgHeader mt none fl sq cfg = none) ∧
    (∀ mt d fl sq cfg, createMsgHeader mt (some d) fl sq cfg =
      createMsgHeaderNoNullGuard mt d fl sq cfg) :=
  ⟨fun _ _ _ _ => rfl, fun _ _ _ _ _ => rfl⟩

/-- Claim C9: `getMessage` reads at most 256 body bytes from the transport,
and whenever the post-header checks succeed the returned message carries
exactly the first `hmac_size` (20) bytes of the received body, independent of
the header's declared body length; longer bodies are silently truncated. -/
theorem claim_C9 :
    (∀ stream, (readBody stream).length ≤ 256) ∧
    (∀ hdr body cfg req msg, checkAssemble hdr body cfg req = .ok msg →
      msg.data = body.take hmac_size) ∧
    (∀ hdr body cfg req msg, checkAssemble hdr body cfg req = .ok msg →
      hmac_size ≤ body.length → msg.data.length = hmac_size) := by
  refine ⟨fun stream => ?_, fun hdr body cfg req msg h => checkAssemble_ok_data _ _ _ _ _ h,
    fun hdr body cfg req msg h hlen => ?_⟩
  · simp [readBody]
  · rw [checkAssemble_ok_data _ _ _ _ _ h, List.length_take]
    simp [hmac_size] at hlen ⊢
    omega

theorem claim_C9_witness :
    (⟨1, 0, 0, [1, 2, 3]⟩ : Message).data = ([1, 2, 3] : List Nat).take hmac_size ∧
    (⟨1, 0, 0, (List.range 25).take hmac_size⟩ : Message).data.length = hmac_size :=
  ⟨claim_C9.2.1 ⟨1, 0, 0, 0, List.replicate 20 0⟩ [1, 2, 3] none 0
      ⟨1, 0, 0, [1, 2, 3]⟩ (by decide),
   claim_C9.2.2 ⟨1, 0, 0, 0, List.replicate 20 0⟩ (List.range 25) none 0
      ⟨1, 0, 0, (List.range 25).take hmac_size⟩ (by decide) (by decide)⟩

/-- Claim C8 (counterexample): with a declared body length of 100 but only 5
received body bytes, the post-header phase of `getMessage` succeeds instead
of failing with the Truncated error, and the resulting message's body length
differs from the header's declared length. -/
theorem claim_C8_counterexample :
    checkAssemble ⟨1, 0, 0, 100, List.replicate 20 0⟩ [1, 2, 3, 4, 5] none 0 =
      .ok ⟨1, 0, 0, [1, 2, 3, 4, 5]⟩ ∧
    ([1, 2, 3, 4, 5] : List Nat).length ≠ 100 := by decide

/-- Claim C8 (amended): `getMessage` performs no comparison between the
number of body bytes delivered and the header's declared body length - its
outcome is entirely independent of the `datasize` field. -/
theorem claim_C8 (hdr : MessageHeader) (body : List Nat) (cfg : Config)
    (req d' : Nat) :
    checkAssemble hdr body cfg req =
      checkAssemble ⟨hdr.type, hdr.flags, hdr.sequence, d', hdr.hmac⟩ body cfg req := by
  cases hdr
  rfl

/-- Claim C1: on a message whose header has the HMAC flag set, with a local
key configured, `getMessage` recomputes the keyed digest over the received
body - but the `!memcmp` test of line 103 is inverted: it fails with the
hmac-mismatch error exactly when the recomputed digest EQUALS the header's
digest, and accepts the message when the digests differ.  This contradicts
the claim, which demands failure exactly on digest disagreement. -/
theorem claim_C1 :
    (∀ hdr body key req, (req = 0 ∨ hdr.type = req) →
      hdr.flags &&& _FLAGS_HMAC ≠ 0 → hdr.hmac = hmac_sha1 key body →
      checkAssemble hdr body (some key) req = .error .hmacMismatch) ∧
    (∀ hdr body key req, (req = 0 ∨ hdr.type = req) →
      hdr.flags &&& _FLAGS_HMAC ≠ 0 → hdr.hmac ≠ hmac_sha1 key body →
      checkAssemble hdr body (some key) req =
        .ok ⟨hdr.type, hdr.flags, hdr.sequence, body.take hmac_size⟩) := by
  constructor <;>
  · intro hdr body key req hreq hflag hh
    have h1 : ¬(req ≠ 0 ∧ hdr.type ≠ req) := by rcases hreq with h | h <;> simp [h]
    simp [checkAssemble, h1, hflag, hh]

theorem claim_C1_witness :
    checkAssemble ⟨1, 8, 0, 0, hmac_sha1 [74, 101, 102, 101] [97, 98, 99]⟩ [97, 98, 99]
        (some [74, 101, 102, 101]) 0 = .error .hmacMismatch ∧
    checkAssemble ⟨1, 8, 0, 0, List.replicate 20 255⟩ [97, 98, 99]
        (some [74, 101, 102, 101]) 0 =
      .ok ⟨1, 8, 0, ([97, 98, 99] : List Nat).take hmac_size⟩ :=
  ⟨claim_C1.1 _ _ _ _ (Or.inl rfl) (by decide) rfl,
   claim_C1.2 _ _ _ _ (Or.inl rfl) (by decide) (by decide)⟩

/-- Claim C6: the symmetry test of lines 109-113 does implement the claimed
behaviour on a parsed header (flag set without a key, or key without the
flag, is the not-symmetric error; flag clear with no key skips any digest
check and proceeds) - but on a received message `getMessage` never reaches
it: `parseMessageHeader` exits first at its strlen-based size test, as the
final conjunct shows on a well-formed flag-set message with no local key. -/
theorem claim_C6 :
    (∀ (hdr : MessageHeader) (body : List Nat) req, (req = 0 ∨ hdr.type = req) →
      hdr.flags &&& _FLAGS_HMAC ≠ 0 →
      checkAssemble hdr body none req = .error .hmacConfigNotSymmetric) ∧
    (∀ (hdr : MessageHeader) (body key : List Nat) req, (req = 0 ∨ hdr.type = req) →
      hdr.flags &&& _FLAGS_HMAC = 0 →
      checkAssemble hdr body (some key) req = .error .hmacConfigNotSymmetric) ∧
    (∀ (hdr : MessageHeader) (body : List Nat) req, (req = 0 ∨ hdr.type = req) →
      hdr.flags &&& _FLAGS_HMAC = 0 →
      checkAssemble hdr body none req =
        .ok ⟨hdr.type, hdr.flags, hdr.sequence, body.take hmac_size⟩) ∧
    getMessage ([80, 89, 82, 79, 0, 44, 0, 1, 0, 8, 0, 0, 0, 0, 0, 0, 0, 0] ++
        List.replicate 20 0 ++ [1, 2, 3]) none 0 = .error .sizeMismatch := by
  refine ⟨fun hdr body req hreq hflag => ?_, fun hdr body key req hreq hflag => ?_,
    fun hdr body req hreq hflag => ?_, by decide⟩ <;>
  · have h1 : ¬(req ≠ 0 ∧ hdr.type ≠ req) := by rcases hreq with h | h <;> simp [h]
    simp [checkAssemble, h1, hflag]

theorem claim_C6_witness :
    checkAssemble ⟨1, 8, 0, 0, List.replicate 20 0⟩ [5, 6] none 0 =
      .error .hmacConfigNotSymmetric ∧
    checkAssemble ⟨1, 0, 0, 0, List.replicate 20 0⟩ [5, 6] (some [9]) 0 =
      .error .hmacConfigNotSymmetric ∧
    checkAssemble ⟨1, 0, 0, 0, List.replicate 20 0⟩ [5, 6] none 0 =
      .ok ⟨1, 0, 0, ([5, 6] : List Nat).take hmac_size⟩ :=
  ⟨claim_C6.1 _ _ _ (Or.inl rfl) (by decide),
   claim_C6.2.1 _ _ _ _ (Or.inl rfl) (by decide),
   claim_C6.2.2.1 _ _ _ (Or.inl rfl) (by decide)⟩

/-- Claim C2: the round-trip fails on every input: a header built by
`createMsgHeader` always has the zero byte of the protocol version at offset
4, so the strlen-based size test of `parseMessageHeader` computes 4, never
38, and decode rejects every encoder-produced header with the size-mismatch
(Truncated) error instead of returning the original fields. -/
theorem claim_C2 (mt : Nat) (d : List Nat) (fl sq : Nat) (cfg : Config)
    (out : List Nat) (hsq : sq ≤ 0xffff)
    (hout : createMsgHeader mt (some d) fl sq cfg = some out) :
    parseMessageHeader (some out) = .error .sizeMismatch := by
  have hshape : out.getD 0 0 = 80 ∧ out.getD 1 0 = 89 ∧ out.getD 2 0 = 82 ∧
      out.getD 3 0 = 79 ∧ out.getD 4 0 = 0 ∧ 4 < out.length := by
    cases cfg with
    | none =>
      rw [create_some_none mt d fl sq hsq] at hout
      injection hout with h
      subst h
      simp [hmac_sha1_length]
    | some key =>
      rw [create_some_key mt d fl sq key hsq] at hout
      injection hout with h
      subst h
      simp [hmac_sha1_length]
  obtain ⟨g0, g1, g2, g3, g4, glen⟩ := hshape
  have hcs : cstrlen out = 4 :=
    cstrlen_eq_four (by rw [g0]; decide) (by rw [g1]; decide) (by rw [g2]; decide)
      (by rw [g3]; decide) g4 glen
  have hfalse : sizeOK out = false := by
    simp [sizeOK, hcs, HEADER_SIZE]
  simp [parseMessageHeader, hfalse]

theorem claim_C2_witness :
    parseMessageHeader (some ([80, 89, 82, 79, 0, 44, 0, 1, 0, 0, 0, 7, 0, 0, 0, 3, 53, 32] ++
      List.replicate 20 0)) = .error .sizeMismatch :=
  claim_C2 1 [97, 98, 99] 0 7 none
    ([80, 89, 82, 79, 0, 44, 0, 1, 0, 0, 0, 7, 0, 0, 0, 3, 53, 32] ++ List.replicate 20 0)
    (by decide) (by decide)

/-- Claim C4: buffers shorter than 38 bytes are indeed rejected with the
size-mismatch (Truncated) error - but the test is `strlen(headerdata) ==
38`, not a length check, so a well-formed 38-byte header (whose version
high byte at offset 4 is 0) is ALSO rejected: buffers of length at least 38
do not in general pass the size check. -/
theorem claim_C4 :
    (∀ hd : List Nat, hd.length < HEADER_SIZE →
      parseMessageHeader (some hd) = .error .sizeMismatch) ∧
    (parseMessageHeader (some ([80, 89, 82, 79, 0, 44, 0, 1, 0, 0, 0, 0, 0, 0, 0, 0, 53, 22] ++
        List.replicate 20 0)) = .error .sizeMismatch ∧
      ([80, 89, 82, 79, 0, 44, 0, 1, 0, 0, 0, 0, 0, 0, 0, 0, 53, 22] ++
        List.replicate 20 (0 : Nat)).length = HEADER_SIZE) := by
  refine ⟨fun hd hlen => ?_, by decide⟩
  have h1 := cstrlen_le_length hd
  simp only [HEADER_SIZE] at hlen
  have hfalse : sizeOK hd = false := by
    simp [sizeOK, HEADER_SIZE]
    omega
  simp [parseMessageHeader, hfalse]

theorem claim_C4_witness :
    (List.replicate 37 (1 : Nat)).length < HEADER_SIZE ∧
    parseMessageHeader (some (List.replicate 37 1)) = .error .sizeMismatch :=
  ⟨by decide, claim_C4.1 (List.replicate 37 1) (by decide)⟩

/-- Claim C5 (counterexample): with NO shared secret configured and the
caller passing flags with the HMAC bit already set, the encoded header
still carries the HMAC_PRESENT bit - `createMsgHeader` never clears it. -/
theorem claim_C5_counterexample :
    Nat.testBit (readBE16 ((createMsgHeader 1 (some [120]) _FLAGS_HMAC 0 none).getD []) 8) 3 =
      true := by decide

/-- Claim C5 (amended): if a shared secret is configured the encoded flags
field has the HMAC_PRESENT bit forced on and the digest bytes are
Sign(key, body); if no secret is configured the digest bytes are all zero
and the flags field is exactly the caller-supplied flags (reduced to 16
bits) - the HMAC_PRESENT bit is passed through unchanged, not cleared. -/
theorem claim_C5 :
    (∀ mt d fl sq key out, sq ≤ 0xffff →
      createMsgHeader mt (some d) fl sq (some key) = some out →
      Nat.testBit (readBE16 out 8) 3 = true ∧
      readBE16 out 8 = (fl ||| _FLAGS_HMAC) % 65536 ∧
      out.drop 18 = hmac_sha1 key (d.take (cstrlen d))) ∧
    (∀ mt d fl sq out, sq ≤ 0xffff →
      createMsgHeader mt (some d) fl sq none = some out →
      readBE16 out 8 = fl % 65536 ∧
      out.drop 18 = List.replicate hmac_size 0) := by
  have h8 : Nat.testBit 8 3 = true := by decide
  refine ⟨fun mt d fl sq key out hsq hout => ?_, fun mt d fl sq out hsq hout => ?_⟩
  · rw [create_some_key mt d fl sq key hsq] at hout
    injection hout with h
    subst h
    have h2 : readBE16 ([80, 89, 82, 79, 0, 44,
        byte (mt >>> 8), byte mt,
        byte ((fl ||| _FLAGS_HMAC) >>> 8), byte (fl ||| _FLAGS_HMAC),
        byte (sq >>> 8), byte sq,
        byte (cstrlen d >>> 24), byte (cstrlen d >>> 16),
        byte (cstrlen d >>> 8), byte (cstrlen d),
        byte ((mt + PROTOCOL_VERSION + cstrlen d + (fl ||| _FLAGS_HMAC) + sq + PYRO_MAGIC) >>> 8),
        byte ((mt + PROTOCOL_VERSION + cstrlen d + (fl ||| _FLAGS_HMAC) + sq + PYRO_MAGIC))] ++
        hmac_sha1 key (d.take (cstrlen d))) 8 = (fl ||| _FLAGS_HMAC) % 65536 := by
      simp only [readBE16, List.cons_append, List.getD_cons_succ, List.getD_cons_zero]
      simp only [byte, Nat.shiftRight_eq_div_pow]
      omega
    refine ⟨?_, h2, List.drop_left' (by simp)⟩
    rw [h2, show (65536 : Nat) = 2 ^ 16 from by norm_num, Nat.testBit_mod_two_pow]
    simp [_FLAGS_HMAC, Nat.testBit_or, h8]
  · rw [create_some_none mt d fl sq hsq] at hout
    injection hout with h
    subst h
    refine ⟨?_, List.drop_left' (by simp)⟩
    simp only [readBE16, List.cons_append, List.getD_cons_succ, List.getD_cons_zero]
    simp only [byte, Nat.shiftRight_eq_div_pow]
    omega

theorem claim_C5_witness :
    Nat.testBit (readBE16 ([80, 89, 82, 79, 0, 44, 0, 1, 0, 8, 0, 0, 0, 0, 0, 1, 53, 31] ++
      hmac_sha1 [9] [120]) 8) 3 = true ∧
    readBE16 ([80, 89, 82, 79, 0, 44, 0, 1, 0, 0, 0, 0, 0, 0, 0, 1, 53, 23] ++
      List.replicate 20 0) 8 = 0 % 65536 :=
  ⟨(claim_C5.1 1 [120] 0 0 [9]
      ([80, 89, 82, 79, 0, 44, 0, 1, 0, 8, 0, 0, 0, 0, 0, 1, 53, 31] ++ hmac_sha1 [9] [120])
      (by decide) (by decide)).1,
   (claim_C5.2 1 [120] 0 0
      ([80, 89, 82, 79, 0, 44, 0, 1, 0, 0, 0, 0, 0, 0, 0, 1, 53, 23] ++ List.replicate 20 0)
      (by decide) (by decide)).1⟩

/-- Claim C7: the encoder stores (type + version + bodyLen + flags +
sequence + PYRO_MAGIC) mod 65536 big-endian at offset 16; the decoder
recomputes the same sum mod 65536 over the decoded fields, and a parse
succeeds exactly when the size and magic/version tests pass and the
recomputed checksum equals the embedded one. -/
theorem claim_C7 :
    (∀ mt d fl sq cfg out, sq ≤ 0xffff →
      createMsgHeader mt (some d) fl sq cfg = some out →
      readBE16 out 16 =
        (mt + PROTOCOL_VERSION + cstrlen d +
          (if cfg.isSome then fl ||| _FLAGS_HMAC else fl) + sq + PYRO_MAGIC) % 65536) ∧
    (∀ hd, currentChecksum hd =
      ((decodeFields hd).type + readVersion hd + (decodeFields hd).datasize +
        (decodeFields hd).flags + (decodeFields hd).sequence + PYRO_MAGIC) % 65536) ∧
    (∀ hd h, parseMessageHeader (some hd) = .ok h ↔
      (sizeOK hd = true ∧ magicVersionOK hd = true ∧
        currentChecksum hd = storedChecksum hd ∧ h = decodeFields hd)) := by
  refine ⟨fun mt d fl sq cfg out hsq hout => ?_, fun hd => ?_, fun hd h => ?_⟩
  · cases cfg with
    | none =>
      rw [create_some_none mt d fl sq hsq] at hout
      injection hout with h
      subst h
      rw [readBE16_at16]
      simp only [Option.isSome_none, Bool.false_eq_true, if_false, byte,
        Nat.shiftRight_eq_div_pow]
      omega
    | some key =>
      rw [create_some_key mt d fl sq key hsq] at hout
      injection hout with h
      subst h
      rw [readBE16_at16]
      simp only [Option.isSome_some, if_true, byte, Nat.shiftRight_eq_div_pow]
      omega
  · rw [currentChecksum, and_ffff]
  · by_cases h1 : sizeOK hd
    · by_cases h2 : magicVersionOK hd
      · by_cases h3 : currentChecksum hd = storedChecksum hd
        · simp [parseMessageHeader, h1, h2, h3, eq_comm]
        · simp [parseMessageHeader, h1, h2, h3]
      · simp [parseMessageHeader, h1, h2]
    · simp [parseMessageHeader, h1]

/-- Claim C3 (counterexample): a validly encoded 38-byte header with a
single bit flipped at offset 18 (inside the digest field, outside the
checksum field at 16-17) does NOT decode to ChecksumMismatch: decode fails
at the strlen-based size test instead, and even the checksum relation
itself still holds on the corrupted buffer, since the digest bytes are not
covered by the checksum. -/
theorem claim_C3_counterexample :
    ((createMsgHeader 4 (some [97, 98, 99]) 0 7 none).getD []).length = 38 ∧
    parseMessageHeader
        (some (flipBit ((createMsgHeader 4 (some [97, 98, 99]) 0 7 none).getD []) 18 0)) =
      .error .sizeMismatch ∧
    Err.sizeMismatch ≠ Err.checksumMismatch ∧
    currentChecksum (flipBit ((createMsgHeader 4 (some [97, 98, 99]) 0 7 none).getD []) 18 0) =
      storedChecksum (flipBit ((createMsgHeader 4 (some [97, 98, 99]) 0 7 none).getD []) 18 0) := by
  decide

/-- Claim C3 (amended): single-bit flips in an encoded header affect the
checksum comparison only through the bytes it reads mod 2^16: a flip
anywhere in the digest field (offsets 18-37) or in the two high body-length
bytes (offsets 12-13) leaves both the recomputed and the stored checksum
values unchanged, so no ChecksumMismatch can arise there - and decode of
such a corrupted encoder output fails at the size test anyway; a flip in
the type, flags, sequence, or low body-length bytes (offsets 6-11 and
14-15) does change the recomputed checksum away from the stored one, as
exhibited on a representative encoded header. -/
theorem claim_C3 :
    (∀ mt d fl sq cfg out i b, sq ≤ 0xffff →
      createMsgHeader mt (some d) fl sq cfg = some out →
      ((18 ≤ i ∧ i ≤ 37) ∨ i = 12 ∨ i = 13) →
      currentChecksum (flipBit out i b) = currentChecksum out ∧
      storedChecksum (flipBit out i b) = storedChecksum out ∧
      parseMessageHeader (some (flipBit out i b)) = .error .sizeMismatch) ∧
    (∀ i ∈ ([6, 7, 8, 9, 10, 11, 14, 15] : List Nat), ∀ b, b < 8 →
      currentChecksum (flipBit ((createMsgHeader 4 (some [97, 98, 99]) 0 7 none).getD []) i b) ≠
        storedChecksum (flipBit ((createMsgHeader 4 (some [97, 98, 99]) 0 7 none).getD []) i b)) := by
  refine ⟨fun mt d fl sq cfg out i b hsq hout hcase => ?_, by decide⟩
  obtain ⟨g0, g1, g2, g3, g4, hlen⟩ := create_out_shape mt d fl sq cfg out hsq hout
  simp only [flipBit]
  refine ⟨?_, stored_set_ne _ _ _ (by omega) (by omega), ?_⟩
  · rcases hcase with ⟨h18, _⟩ | h12 | h13
    · exact current_set_ge18 _ _ _ h18
    · subst h12
      exact current_set12 _ _ (by omega)
    · subst h13
      exact current_set13 _ _ (by omega)
  · apply parse_of_cstrlen_ne
    have h5 : 5 ≤ i := by omega
    have hcs : cstrlen (out.set i (out.getD i 0 ^^^ 1 <<< b)) = 4 :=
      cstrlen_eq_four
        (by rw [getD_set_of_ne _ (show i ≠ 0 by omega), g0]; decide)
        (by rw [getD_set_of_ne _ (show i ≠ 1 by omega), g1]; decide)
        (by rw [getD_set_of_ne _ (show i ≠ 2 by omega), g2]; decide)
        (by rw [getD_set_of_ne _ (show i ≠ 3 by omega), g3]; decide)
        (by rw [getD_set_of_ne _ (show i ≠ 4 by omega)]; exact g4)
        (by rw [List.length_set]; omega)
    rw [hcs]
    decide

theorem claim_C3_witness :
    currentChecksum (flipBit ([80, 89, 82, 79, 0, 44, 0, 4, 0, 0, 0, 7, 0, 0, 0, 3, 53, 35] ++
        List.replicate 20 0) 20 1) =
      currentChecksum ([80, 89, 82, 79, 0, 44, 0, 4, 0, 0, 0, 7, 0, 0, 0, 3, 53, 35] ++
        List.replicate 20 0) ∧
    storedChecksum (flipBit ([80, 89, 82, 79, 0, 44, 0, 4, 0, 0, 0, 7, 0, 0, 0, 3, 53, 35] ++
        List.replicate 20 0) 20 1) =
      storedChecksum ([80, 89, 82, 79, 0, 44, 0, 4, 0, 0, 0, 7, 0, 0, 0, 3, 53, 35] ++
        List.replicate 20 0) ∧
    parseMessageHeader (some (flipBit ([80, 89, 82, 79, 0, 44, 0, 4, 0, 0, 0, 7, 0, 0, 0, 3, 53, 35] ++
        List.replicate 20 0) 20 1)) = .error .sizeMismatch :=
  claim_C3.1 4 [97, 98, 99] 0 7 none
    ([80, 89, 82, 79, 0, 44, 0, 4, 0, 0, 0, 7, 0, 0, 0, 3, 53, 35] ++ List.replicate 20 0)
    20 1 (by decide) (by decide) (Or.inl ⟨by decide, by decide⟩)

theorem claim_C7_witness :
    readBE16 ([80, 89, 82, 79, 0, 44, 0, 1, 0, 0, 0, 7, 0, 0, 0, 3, 53, 32] ++
      List.replicate 20 0) 16 =
      (1 + PROTOCOL_VERSION + cstrlen [97, 98, 99] +
        (if (none : Config).isSome then 0 ||| _FLAGS_HMAC else 0) + 7 + PYRO_MAGIC) % 65536 :=
  claim_C7.1 1 [97, 98, 99] 0 7 none
    ([80, 89, 82, 79, 0, 44, 0, 1, 0, 0, 0, 7, 0, 0, 0, 3, 53, 32] ++ List.replicate 20 0)
    (by decide) (by decide)

end Cylc
